import Mathlib

/-!
Verification of the Echo-Meeting browser recorder.

The development shallowly embeds the application code: the Gemini analysis
service (services/geminiService.ts), the main App controller of the first
application variant (types, startRecording, stopRecording, the recorder
event handlers, handleDelete, handleAnalyze), and the onstop handler of the
second application variant.  JavaScript string primitives (indexOf,
substring, replace, trim, includes) are modelled over lists of characters.
-/

namespace EchoMeeting

/-! ### JavaScript string primitives, modelled over lists of characters -/

/-- JS String.prototype.indexOf for a fixed pattern: index of the first
occurrence of the pattern, none when absent. -/
def jsIndexOf (pat : List Char) : List Char → Option Nat
  | [] => if pat.isPrefixOf [] then some 0 else none
  | c :: rest =>
      if pat.isPrefixOf (c :: rest) then some 0
      else (jsIndexOf pat rest).map (· + 1)

/-- JS String.prototype.replace with a string pattern: replaces only the
first occurrence of the pattern. -/
def jsReplaceFirst (pat repl s : List Char) : List Char :=
  match jsIndexOf pat s with
  | none => s
  | some i => s.take i ++ repl ++ s.drop (i + pat.length)

/-- JS String.prototype.trim: strip whitespace from both ends. -/
def jsTrim (s : List Char) : List Char :=
  ((s.dropWhile Char.isWhitespace).reverse.dropWhile Char.isWhitespace).reverse

/-- JS String.prototype.includes. -/
def jsIncludes (pat s : List Char) : Bool :=
  (jsIndexOf pat s).isSome

theorem jsIndexOf_of_isPrefix {pat s : List Char} (h : pat <+: s) :
    jsIndexOf pat s = some 0 := by
  cases s with
  | nil => simp [jsIndexOf, h]
  | cons c rest => simp [jsIndexOf, h]

theorem jsIndexOf_first (pat pre post : List Char)
    (hfirst : ∀ j, j < pre.length → ¬ pat <+: ((pre ++ pat ++ post).drop j)) :
    jsIndexOf pat (pre ++ pat ++ post) = some pre.length := by
  induction pre with
  | nil =>
      simpa using jsIndexOf_of_isPrefix (List.prefix_append pat post)
  | cons c cs ih =>
      have h0 : ¬ pat.isPrefixOf (c :: (cs ++ pat ++ post)) := by
        have h := hfirst 0 (Nat.succ_pos _)
        simpa using h
      have hshift : ∀ j, j < cs.length → ¬ pat <+: ((cs ++ pat ++ post).drop j) := by
        intro j hj
        have h := hfirst (j + 1) (by simpa using Nat.succ_lt_succ hj)
        simpa [List.drop_succ_cons] using h
      have hrec := ih hshift
      simp only [List.cons_append, List.length_cons]
      rw [jsIndexOf, if_neg h0, hrec]
      rfl

theorem jsIndexOf_eq_none_of_not_infix (pat : List Char) :
    ∀ s : List Char, ¬ pat <:+: s → jsIndexOf pat s = none := by
  intro s
  induction s with
  | nil =>
      intro h
      have hp : ¬ pat.isPrefixOf ([] : List Char) := by
        intro hb
        have hpre : pat <+: ([] : List Char) := by simpa using hb
        obtain ⟨t, ht⟩ := hpre
        exact h ⟨[], t, by simpa using ht⟩
      simp [jsIndexOf, hp]
  | cons c rest ih =>
      intro h
      have hp : ¬ pat.isPrefixOf (c :: rest) := by
        intro hb
        have hpre : pat <+: (c :: rest) := by simpa using hb
        obtain ⟨t, ht⟩ := hpre
        exact h ⟨[], t, by simpa using ht⟩
      have hrest : ¬ pat <:+: rest := fun hi => h (List.infix_cons hi)
      simp [jsIndexOf, hp, ih hrest]

theorem jsReplaceFirst_cancel_left (pat post : List Char) :
    jsReplaceFirst pat [] (pat ++ post) = post := by
  unfold jsReplaceFirst
  rw [jsIndexOf_of_isPrefix (List.prefix_append pat post)]
  simp [List.drop_left]

/-! ### geminiService.ts -/

/-- The section marker splitting the model response (geminiService.ts line 65). -/
def summaryMarker : List Char := "## Summary".data

/-- The transcription heading removed from the first section (line 71). -/
def transcriptionMarker : List Char := "## Transcription".data

/-- Fallback summary used when the marker is absent (line 75). -/
def fallbackSummary : List Char := "Could not generate structured summary.".data

/-- Response-splitting logic of analyzeAudio, lines 63-76 of
geminiService.ts: split at the first occurrence of the summary marker,
strip the headings from each part and trim; without a marker the whole
text is the transcription and a fixed fallback summary is used. -/
def parseGeminiText (text : List Char) : List Char × List Char :=
  match jsIndexOf summaryMarker text with
  | some i =>
      (jsTrim (jsReplaceFirst transcriptionMarker [] (text.take i)),
       jsTrim (jsReplaceFirst summaryMarker [] (text.drop i)))
  | none => (text, fallbackSummary)

/-- Observable effects of analyzeAudio after the credential check. -/
inductive GeminiStep
  | encodePayload
  | networkCall
deriving DecidableEq

/-- The credential check of geminiService.ts line 23: !apiKey || apiKey === "".
The credential is absent (undefined) or the empty string. -/
def apiKeyMissing : Option String → Bool
  | none => true
  | some k => k == ""

/-- Error message thrown on a missing credential (line 24). -/
def apiKeyMissingMsg : String :=
  "API Key is missing. Please ensure your API key is configured."

/-- analyzeAudio of geminiService.ts: checks the credential first, then
encodes the payload, performs the network call and splits the response
text.  The returned list of steps records which effects were reached. -/
def analyzeAudio (apiKey : Option String) (audioBlob : List Nat)
    (responseText : List Char) :
    Except String (List Char × List Char) × List GeminiStep :=
  if apiKeyMissing apiKey then
    (Except.error apiKeyMissingMsg, [])
  else
    (Except.ok (parseGeminiText responseText),
     [GeminiStep.encodePayload, GeminiStep.networkCall])

theorem analyzeAudio_blob_irrelevant (apiKey : Option String)
    (b₁ b₂ : List Nat) (text : List Char) :
    analyzeAudio apiKey b₁ text = analyzeAudio apiKey b₂ text := rfl

/-- C7: if the API credential is absent or the empty string, analyzeAudio
raises the configuration error "API Key is missing" and neither payload
encoding nor a network call is attempted, for every input audio payload. -/
theorem claim_C7_missing_credential (audioBlob : List Nat) (responseText : List Char) :
    analyzeAudio none audioBlob responseText = (Except.error apiKeyMissingMsg, []) ∧
    analyzeAudio (some "") audioBlob responseText = (Except.error apiKeyMissingMsg, []) :=
  ⟨rfl, rfl⟩

/-- C10: with a present credential, if the response text contains the
marker "## Summary" (first occurrence after a prefix pre), analyzeAudio
returns the text before the marker with "## Transcription" removed and
trimmed as the transcription, and the text from the marker onward with
"## Summary" removed and trimmed (that is, the trimmed text after the
marker) as the summary; if the marker is absent it returns the whole text
as the transcription and the fixed fallback string as the summary. -/
theorem claim_C10_response_split (apiKey : String) (audioBlob : List Nat)
    (text : List Char) (hk : (apiKey == "") = false) :
    (∀ pre post, text = pre ++ summaryMarker ++ post →
        (∀ j, j < pre.length → ¬ summaryMarker <+: (text.drop j)) →
        (analyzeAudio (some apiKey) audioBlob text).1 =
          Except.ok (jsTrim (jsReplaceFirst transcriptionMarker [] pre), jsTrim post)) ∧
    ((¬ summaryMarker <:+: text) →
        (analyzeAudio (some apiKey) audioBlob text).1 = Except.ok (text, fallbackSummary)) := by
  constructor
  · intro pre post htext hfirst
    subst htext
    have hidx : jsIndexOf summaryMarker (pre ++ (summaryMarker ++ post)) = some pre.length := by
      have h := jsIndexOf_first summaryMarker pre post hfirst
      simpa [List.append_assoc] using h
    have htake : (pre ++ (summaryMarker ++ post)).take pre.length = pre :=
      List.take_left pre (summaryMarker ++ post)
    have hdrop : (pre ++ (summaryMarker ++ post)).drop pre.length = summaryMarker ++ post :=
      List.drop_left pre (summaryMarker ++ post)
    simp [analyzeAudio, apiKeyMissing, hk, parseGeminiText, hidx, htake, hdrop,
      jsReplaceFirst_cancel_left]
  · intro hni
    have hidx := jsIndexOf_eq_none_of_not_infix summaryMarker text hni
    simp [analyzeAudio, apiKeyMissing, hk, parseGeminiText, hidx]

/-- Witness for C10 at a concrete two-section response and a concrete
marker-free response. -/
theorem claim_C10_witness :
    (analyzeAudio (some "key") [1]
        ("## Transcription\nhello world\n\n## Summary\n- a point\n").data).1 =
      Except.ok ("hello world".data, "- a point".data) ∧
    (analyzeAudio (some "key") [1] ("no sections here").data).1 =
      Except.ok (("no sections here").data, fallbackSummary) := by
  constructor
  · have h := (claim_C10_response_split "key" [1]
        ("## Transcription\nhello world\n\n## Summary\n- a point\n").data (by decide)).1
        ("## Transcription\nhello world\n\n").data ("\n- a point\n").data
        (by decide) (by decide)
    rw [h]
    exact congrArg Except.ok (by decide)
  · have h := (claim_C10_response_split "key" [1] ("no sections here").data (by decide)).2
        (by decide)
    rw [h]

/-! ### Data model (types.ts) -/

/-- The audio sources that can feed the mixing destination. -/
inductive AudioSource
  | system
  | mic
deriving DecidableEq

/-- Recording record of types.ts.  The binary payload is abstracted by its
byte size together with the set of sources mixed into it; the playback
handle (url) is an opaque string. -/
structure Recording where
  id : String
  blobSize : Nat := 0
  sources : List AudioSource := []
  url : String := ""
  timestamp : Nat := 0
  duration : Nat := 0
  name : String := ""
  transcription : Option String := none
  summary : Option String := none
deriving DecidableEq

/-- RecorderState enumeration of types.ts. -/
inductive RecorderState
  | IDLE
  | PREPARING
  | RECORDING
  | PAUSED
  | PROCESSING
deriving DecidableEq

/-- The mutable state of the App component of the first variant, together
with the refs that carry the capture pipeline.  capturedTimer models the
value of the timer state variable captured by the closures created inside
startRecording (the recorder onstop handler reads this stale binding, not
the live timer). -/
structure Session where
  recorderState : RecorderState
  recordings : List Recording
  timer : Nat
  errorMsg : Option String
  processingIds : List String
  includeMic : Bool
  activeStreamTracks : List Nat
  connectedSources : List AudioSource
  chunks : List Nat
  recorderOn : Bool
  mimeType : String
  capturedTimer : Nat
deriving DecidableEq

/-- The initial component state: idle, no recordings, mic inclusion on. -/
def initialSession : Session :=
  { recorderState := RecorderState.IDLE
    recordings := []
    timer := 0
    errorMsg := none
    processingIds := []
    includeMic := true
    activeStreamTracks := []
    connectedSources := []
    chunks := []
    recorderOn := false
    mimeType := ""
    capturedTimer := 0 }

/-! ### Capture environment -/

/-- Outcome of navigator.mediaDevices.getDisplayMedia: the user cancels or
the platform denies (NotAllowedError), another acquisition error with a
message, or a granted stream carrying the listed audio and video tracks. -/
inductive DisplayOutcome
  | notAllowed
  | failure (message : String)
  | granted (audioTracks videoTracks : List Nat)

/-- Outcome of navigator.mediaDevices.getUserMedia for the microphone. -/
inductive MicOutcome
  | granted (tracks : List Nat)
  | denied

/-- The platform collaborators consulted by startRecording. -/
structure StartEnv where
  display : DisplayOutcome
  mic : MicOutcome
  isTypeSupported : String → Bool

/-- Ordered encoding preference list of the first variant (lines 145-149). -/
def supportedTypes : List String :=
  ["audio/mp4", "video/mp4;codecs=avc1", "audio/webm;codecs=opus"]

/-- Error thrown when the granted display stream has no audio track
(line 107 of the first variant). -/
def shareAudioError : String :=
  "Please check \x27Share Audio\x27 in the browser popup to record Teams audio."

/-- Fallback error message of the outer catch (line 193). -/
def startFallbackError : String := "Failed to start recording"

/-- Result of a startRecording call: the new component state and every
track id stopped during the call. -/
structure StartResult where
  session : Session
  stoppedTracks : List Nat

/-- startRecording of the first variant (lines 81-197): reset the error,
go to PREPARING, clean up leftovers; acquire display capture (NotAllowed
returns to idle silently; zero audio tracks stops the granted tracks and
surfaces the share-audio error; other failures surface their message);
best-effort microphone acquisition when requested; pick the first
supported encoding with an audio/webm fallback; start the recorder and the
one-second timer and go to RECORDING. -/
def startRecording (env : StartEnv) (s : Session) : StartResult :=
  let cleaned := s.activeStreamTracks
  let s0 : Session :=
    { s with errorMsg := none
             recorderState := RecorderState.PREPARING
             activeStreamTracks := []
             connectedSources := [] }
  match env.display with
  | DisplayOutcome.notAllowed =>
      { session := { s0 with recorderState := RecorderState.IDLE }
        stoppedTracks := cleaned }
  | DisplayOutcome.failure message =>
      let msg := if message = "" then startFallbackError else message
      { session := { s0 with errorMsg := some msg
                             recorderState := RecorderState.IDLE }
        stoppedTracks := cleaned }
  | DisplayOutcome.granted audioTracks videoTracks =>
      if audioTracks.isEmpty then
        { session := { s0 with errorMsg := some shareAudioError
                               recorderState := RecorderState.IDLE }
          stoppedTracks := cleaned ++ audioTracks ++ videoTracks }
      else
        let s1 : Session :=
          { s0 with activeStreamTracks := audioTracks ++ videoTracks
                    connectedSources := [AudioSource.system] }
        let s2 : Session :=
          if s1.includeMic then
            match env.mic with
            | MicOutcome.granted micTracks =>
                { s1 with activeStreamTracks := s1.activeStreamTracks ++ micTracks
                          connectedSources := s1.connectedSources ++ [AudioSource.mic] }
            | MicOutcome.denied => s1
          else s1
        let mime := ((supportedTypes.find? env.isTypeSupported).getD "audio/webm")
        { session :=
            { s2 with recorderState := RecorderState.RECORDING
                      timer := 0
                      chunks := []
                      recorderOn := true
                      mimeType := mime
                      capturedTimer := s.timer }
          stoppedTracks := cleaned }

/-! ### Recorder events and stop -/

/-- Environment values read inside the onstop handler: the generated id,
the current clock, and the formatted date and wall-clock components used
for the file name. -/
structure StopInfo where
  newId : String
  now : Nat
  dateStr : String
  hour : Nat
  minute : Nat

/-- Final blob type negotiated in onstop (line 163 of the first variant). -/
def negotiatedFinalType (mimeType : String) : String :=
  if jsIncludes ("mp4".data) mimeType.data then "video/mp4" else "audio/webm"

/-- File extension derived from the final type (line 165). -/
def negotiatedExtension (mimeType : String) : String :=
  if jsIncludes ("mp4".data) (negotiatedFinalType mimeType).data then "mp4" else "webm"

/-- Display name built in onstop (line 174 of the first variant). -/
def recordingFileName (info : StopInfo) (mimeType : String) : String :=
  "Meeting_" ++ info.dateStr ++ "_" ++ toString info.hour ++ toString info.minute
    ++ "." ++ negotiatedExtension mimeType

/-- The recorder onstop handler of the first variant (lines 162-181):
assemble the buffered chunks into the payload, derive the extension, build
the Recording (its duration reads the stale captured timer binding),
prepend it to the list, return to idle, reset the timer and clean up. -/
def recorderOnStop (info : StopInfo) (s : Session) : Session :=
  let newRecording : Recording :=
    { id := info.newId
      blobSize := s.chunks.sum
      sources := s.connectedSources
      url := ""
      timestamp := info.now
      duration := s.capturedTimer
      name := recordingFileName info s.mimeType }
  { s with recordings := newRecording :: s.recordings
           recorderState := RecorderState.IDLE
           timer := 0
           activeStreamTracks := []
           recorderOn := false }

/-- stopRecording (lines 199-203): signal the recorder to finalize when it
is active, otherwise do nothing. -/
def stopRecording (info : StopInfo) (s : Session) : Session :=
  if s.recorderOn then recorderOnStop info s else s

/-- Events delivered to the component while a session runs: a one-second
timer tick, an ondataavailable chunk of the given size, or the user
pressing stop (which runs the onstop handler). -/
inductive REvent
  | tick
  | dataAvailable (size : Nat)
  | stopClick (info : StopInfo)

/-- One event step.  The interval and the recorder only act while the
recorder is active; ondataavailable pushes only non-empty chunks
(lines 158-160, 188-190). -/
def stepEvent (s : Session) (e : REvent) : Session :=
  match e with
  | REvent.tick => if s.recorderOn then { s with timer := s.timer + 1 } else s
  | REvent.dataAvailable size =>
      if s.recorderOn then
        (if 0 < size then { s with chunks := s.chunks ++ [size] } else s)
      else s
  | REvent.stopClick info => stopRecording info s

/-- Run a sequence of events. -/
def runEvents (s : Session) (es : List REvent) : Session :=
  es.foldl stepEvent s

/-- Which events are a stop signal. -/
def isStopEvent : REvent → Bool
  | REvent.stopClick _ => true
  | _ => false

/-- The chunk sizes offered by the ondataavailable events of a trace. -/
def eventDataSizes : List REvent → List Nat
  | [] => []
  | REvent.dataAvailable n :: rest => n :: eventDataSizes rest
  | _ :: rest => eventDataSizes rest

/-! ### List handlers of the App component -/

/-- handleDelete (lines 205-207): keep every recording whose id differs. -/
def handleDelete (id : String) (recordings : List Recording) : List Recording :=
  recordings.filter (fun r => r.id ≠ id)

/-- Set.add on the processing-id set (insertion order preserved). -/
def setAdd (id : String) (l : List String) : List String :=
  if id ∈ l then l else l ++ [id]

/-- Set.delete on the processing-id set. -/
def setDelete (id : String) (l : List String) : List String :=
  l.filter (fun x => x ≠ id)

/-- The update applied to the analyzed recording on success. -/
def updRecording (t su : String) (r : Recording) : Recording :=
  { r with transcription := some t, summary := some su }

/-- handleAnalyze (lines 209-225): look up the recording (return unchanged
when absent), mark the id as processing, run the analysis; on success
attach transcription and summary to the recordings with that id, on
failure alert and leave the list unchanged; finally remove the processing
mark in both cases. -/
def handleAnalyze (outcome : Except Unit (String × String)) (id : String)
    (recordings : List Recording) (processingIds : List String) :
    List Recording × List String :=
  match recordings.find? (fun r => r.id == id) with
  | none => (recordings, processingIds)
  | some _ =>
      let marked := setAdd id processingIds
      match outcome with
      | Except.ok (t, su) =>
          (recordings.map (fun r => if r.id = id then updRecording t su r else r),
           setDelete id marked)
      | Except.error _ => (recordings, setDelete id marked)

/-! ### The second application variant -/

/-- The recorder onstop handler of the second variant (lines 125-141 of
that file): same structure, but the display name is the word Meeting, a
space and the locale-formatted timestamp, with no extension. -/
def recorderOnStopV2 (newId : String) (now : Nat) (localeString : String)
    (s : Session) : Session :=
  let newRecording : Recording :=
    { id := newId
      blobSize := s.chunks.sum
      sources := s.connectedSources
      url := ""
      timestamp := now
      duration := s.capturedTimer
      name := "Meeting " ++ localeString }
  { s with recordings := newRecording :: s.recordings
           recorderState := RecorderState.IDLE
           timer := 0
           activeStreamTracks := []
           recorderOn := false }

/-- Modelled from the spec: the output file naming contract of section 6,
Meeting_(date)_(hour)(minute).(extension) with extension mp4 or webm.  A
name satisfies the contract when it starts with the Meeting_ prefix and
ends in one of the two extensions. -/
def specNameForm (name : List Char) : Bool :=
  ("Meeting_".data.isPrefixOf name) &&
    ((".mp4".data.isSuffixOf name) || (".webm".data.isSuffixOf name))

/-! ### Claims about the start paths -/

/-- C2: when display capture is granted but the stream carries zero audio
tracks, startRecording ends idle, surfaces the specific share-audio error
message, adds no Recording, and every acquired track is stopped. -/
theorem claim_C2_zero_audio_tracks (s : Session) (videoTracks : List Nat)
    (mic : MicOutcome) (its : String → Bool) :
    (startRecording ⟨DisplayOutcome.granted [] videoTracks, mic, its⟩ s).session.recorderState
        = RecorderState.IDLE ∧
    (startRecording ⟨DisplayOutcome.granted [] videoTracks, mic, its⟩ s).session.errorMsg
        = some shareAudioError ∧
    (startRecording ⟨DisplayOutcome.granted [] videoTracks, mic, its⟩ s).session.recordings
        = s.recordings ∧
    ∀ t ∈ ([] : List Nat) ++ videoTracks,
      t ∈ (startRecording ⟨DisplayOutcome.granted [] videoTracks, mic, its⟩ s).stoppedTracks := by
  refine ⟨rfl, rfl, rfl, ?_⟩
  intro t ht
  simp only [List.nil_append] at ht
  simp [startRecording, List.mem_append, ht]

/-- Witness for C2 at a concrete state and environment. -/
theorem claim_C2_witness :
    (startRecording ⟨DisplayOutcome.granted [] [5], MicOutcome.denied,
        fun _ => false⟩ initialSession).session.recorderState = RecorderState.IDLE ∧
    (startRecording ⟨DisplayOutcome.granted [] [5], MicOutcome.denied,
        fun _ => false⟩ initialSession).session.errorMsg = some shareAudioError ∧
    (startRecording ⟨DisplayOutcome.granted [] [5], MicOutcome.denied,
        fun _ => false⟩ initialSession).session.recordings = [] ∧
    5 ∈ (startRecording ⟨DisplayOutcome.granted [] [5], MicOutcome.denied,
        fun _ => false⟩ initialSession).stoppedTracks := by
  have h := claim_C2_zero_audio_tracks initialSession [5] MicOutcome.denied (fun _ => false)
  exact ⟨h.1, h.2.1, h.2.2.1, h.2.2.2 5 (by decide)⟩

/-- C3: when the platform denies the display-capture request or the user
cancels the prompt (NotAllowedError), startRecording returns with state
idle and no error message, and no Recording is created. -/
theorem claim_C3_permission_denied (s : Session) (mic : MicOutcome) (its : String → Bool) :
    (startRecording ⟨DisplayOutcome.notAllowed, mic, its⟩ s).session.recorderState
        = RecorderState.IDLE ∧
    (startRecording ⟨DisplayOutcome.notAllowed, mic, its⟩ s).session.errorMsg = none ∧
    (startRecording ⟨DisplayOutcome.notAllowed, mic, its⟩ s).session.recordings
        = s.recordings :=
  ⟨rfl, rfl, rfl⟩

/-- C4: when microphone inclusion is requested and microphone acquisition
fails while display audio succeeds, startRecording still reaches the
RECORDING state with only the system source connected, and a subsequent
stop produces a Recording whose payload carries only the system-audio
source. -/
theorem claim_C4_mic_denied (s : Session) (a : Nat) (audioRest videoTracks : List Nat)
    (its : String → Bool) (info : StopInfo) (h : s.includeMic = true) :
    (startRecording ⟨DisplayOutcome.granted (a :: audioRest) videoTracks,
        MicOutcome.denied, its⟩ s).session.recorderState = RecorderState.RECORDING ∧
    (startRecording ⟨DisplayOutcome.granted (a :: audioRest) videoTracks,
        MicOutcome.denied, its⟩ s).session.connectedSources = [AudioSource.system] ∧
    ((recorderOnStop info (startRecording ⟨DisplayOutcome.granted (a :: audioRest) videoTracks,
        MicOutcome.denied, its⟩ s).session).recordings.head?.map Recording.sources)
      = some [AudioSource.system] := by
  refine ⟨?_, ?_, ?_⟩ <;> simp [startRecording, recorderOnStop, h]

/-- Witness for C4 at a concrete state and environment. -/
theorem claim_C4_witness :
    (startRecording ⟨DisplayOutcome.granted [1] [2], MicOutcome.denied,
        fun _ => false⟩ initialSession).session.recorderState = RecorderState.RECORDING ∧
    (startRecording ⟨DisplayOutcome.granted [1] [2], MicOutcome.denied,
        fun _ => false⟩ initialSession).session.connectedSources = [AudioSource.system] ∧
    ((recorderOnStop ⟨"7", 7, "2025-01-02", 9, 5⟩
        (startRecording ⟨DisplayOutcome.granted [1] [2], MicOutcome.denied,
          fun _ => false⟩ initialSession).session).recordings.head?.map Recording.sources)
      = some [AudioSource.system] :=
  claim_C4_mic_denied initialSession 1 [] [2] (fun _ => false) ⟨"7", 7, "2025-01-02", 9, 5⟩ rfl

/-! ### Claim C1: duration of a stopped session -/

/-- Which events are timer ticks. -/
def isTickEvent : REvent → Bool
  | REvent.tick => true
  | _ => false

/-- A concrete session: successful start, three one-second ticks (three
whole seconds elapse between start and stop), one data chunk, then stop. -/
def c1Trace : List REvent :=
  [REvent.tick, REvent.dataAvailable 100, REvent.tick, REvent.tick,
   REvent.stopClick ⟨"1700", 1700, "2025-01-02", 9, 5⟩]

/-- The component state after running the concrete session. -/
def c1Final : Session :=
  runEvents (startRecording ⟨DisplayOutcome.granted [1] [2], MicOutcome.granted [3],
    fun t => t == "audio/mp4"⟩ initialSession).session c1Trace

/-- C1, evaluated at the failing input: the stop creates exactly one
Recording, but its duration is the stale timer value 0 captured by the
onstop closure when startRecording ran, although three whole seconds
(three ticks) elapsed between start and stop; 0 is not within one second
of 3. -/
theorem claim_C1_stale_duration :
    c1Final.recordings.map Recording.duration = [0] ∧
    c1Trace.countP isStopEvent = 1 ∧
    c1Trace.countP isTickEvent = 3 ∧
    c1Final.recordings.map
        (fun r => decide (r.duration + 1 < c1Trace.countP isTickEvent)) = [true] :=
  ⟨by decide, by decide, by decide, by decide⟩

/-! ### Claims about the list handlers -/

/-- C6: with pairwise-distinct identifiers, deleting an identifier present
in the list removes exactly that entry and leaves every other entry in the
same relative order. -/
theorem claim_C6_delete (l1 l2 : List Recording) (r : Recording)
    (hdist : (l1 ++ r :: l2).Pairwise (fun a b => a.id ≠ b.id)) :
    handleDelete r.id (l1 ++ r :: l2) = l1 ++ l2 := by
  obtain ⟨h1, h2, h12⟩ := List.pairwise_append.1 hdist
  have hl1 : ∀ x ∈ l1, x.id ≠ r.id :=
    fun x hx => h12 x hx r (List.mem_cons_self r l2)
  have hl2 : ∀ x ∈ l2, x.id ≠ r.id :=
    fun x hx => ((List.pairwise_cons.1 h2).1 x hx).symm
  have e1 : l1.filter (fun x => !decide (x.id = r.id)) = l1 :=
    List.filter_eq_self.mpr (fun x hx => by simp [hl1 x hx])
  have e2 : l2.filter (fun x => !decide (x.id = r.id)) = l2 :=
    List.filter_eq_self.mpr (fun x hx => by simp [hl2 x hx])
  simp [handleDelete, List.filter_append, e1, e2]

/-- Witness for C6 at a concrete three-element list. -/
theorem claim_C6_witness :
    handleDelete "b" ([{ id := "a" }] ++ ({ id := "b" } : Recording) :: [{ id := "c" }])
      = [{ id := "a" }] ++ [{ id := "c" }] :=
  claim_C6_delete [{ id := "a" }] [{ id := "c" }] { id := "b" } (by decide)

/-- C5: for a list with pairwise-distinct identifiers containing the
recording, handleAnalyze with a successful two-section analysis sets the
transcription and summary of exactly that recording; a failed analysis
leaves every recording untouched; in both cases the processing mark for
the identifier is absent afterwards. -/
theorem claim_C5_analyze (l1 l2 : List Recording) (r : Recording) (p : List String)
    (t su : String)
    (hdist : (l1 ++ r :: l2).Pairwise (fun a b => a.id ≠ b.id)) :
    (handleAnalyze (Except.ok (t, su)) r.id (l1 ++ r :: l2) p).1
        = l1 ++ updRecording t su r :: l2 ∧
    (handleAnalyze (Except.error ()) r.id (l1 ++ r :: l2) p).1 = l1 ++ r :: l2 ∧
    ∀ o : Except Unit (String × String),
      r.id ∉ (handleAnalyze o r.id (l1 ++ r :: l2) p).2 := by
  obtain ⟨h1, h2, h12⟩ := List.pairwise_append.1 hdist
  have hl1 : ∀ x ∈ l1, x.id ≠ r.id :=
    fun x hx => h12 x hx r (List.mem_cons_self r l2)
  have hl2 : ∀ x ∈ l2, x.id ≠ r.id :=
    fun x hx => ((List.pairwise_cons.1 h2).1 x hx).symm
  have hfind : (l1 ++ r :: l2).find? (fun x => x.id == r.id) ≠ none := by
    intro hnone
    have h := List.find?_eq_none.1 hnone r (by simp)
    simp at h
  cases hf : (l1 ++ r :: l2).find? (fun x => x.id == r.id) with
  | none => exact absurd hf hfind
  | some v =>
      have e1 : l1.map (fun x => if x.id = r.id then updRecording t su x else x) = l1 := by
        have := List.map_congr_left (l := l1)
          (f := fun x => if x.id = r.id then updRecording t su x else x) (g := id)
          (fun x hx => by simp [hl1 x hx])
        simpa using this
      have e2 : l2.map (fun x => if x.id = r.id then updRecording t su x else x) = l2 := by
        have := List.map_congr_left (l := l2)
          (f := fun x => if x.id = r.id then updRecording t su x else x) (g := id)
          (fun x hx => by simp [hl2 x hx])
        simpa using this
      refine ⟨?_, ?_, ?_⟩
      · simp [handleAnalyze, hf, e1, e2]
      · simp [handleAnalyze, hf]
      · intro o
        cases o with
        | ok pair => simp [handleAnalyze, hf, setDelete, List.mem_filter]
        | error u => simp [handleAnalyze, hf, setDelete, List.mem_filter]

/-- Witness for C5 at a concrete list and processing set. -/
theorem claim_C5_witness :
    (handleAnalyze (Except.ok ("T", "S")) "b"
        ([{ id := "a" }] ++ ({ id := "b" } : Recording) :: [{ id := "c" }]) ["x"]).1
      = [{ id := "a" }] ++ updRecording "T" "S" { id := "b" } :: [{ id := "c" }] ∧
    (handleAnalyze (Except.error ()) "b"
        ([{ id := "a" }] ++ ({ id := "b" } : Recording) :: [{ id := "c" }]) ["x"]).1
      = [{ id := "a" }] ++ ({ id := "b" } : Recording) :: [{ id := "c" }] ∧
    "b" ∉ (handleAnalyze (Except.error ()) "b"
        ([{ id := "a" }] ++ ({ id := "b" } : Recording) :: [{ id := "c" }]) ["x"]).2 := by
  have h := claim_C5_analyze [{ id := "a" }] [{ id := "c" }] { id := "b" } ["x"] "T" "S"
    (by decide)
  exact ⟨h.1, h.2.1, h.2.2 (Except.error ())⟩

/-! ### Claim C8: output file naming -/

theorem strDataAppend (a b : String) : (a ++ b).data = a.data ++ b.data := rfl

theorem recordingFileName_data (info : StopInfo) (m : String) :
    (recordingFileName info m).data =
      "Meeting_".data ++
        ((info.dateStr ++ "_" ++ toString info.hour ++ toString info.minute).data ++
          (".".data ++ (negotiatedExtension m).data)) := by
  simp [recordingFileName, strDataAppend, List.append_assoc]

theorem specNameForm_shape (mid ext : List Char)
    (hext : ext = "mp4".data ∨ ext = "webm".data) :
    specNameForm ("Meeting_".data ++ (mid ++ (".".data ++ ext))) = true := by
  have hpre : ("Meeting_".data : List Char)
      <+: ("Meeting_".data ++ (mid ++ (".".data ++ ext))) :=
    List.prefix_append _ _
  have hsuf : (".".data ++ ext) <:+ ("Meeting_".data ++ (mid ++ (".".data ++ ext))) :=
    (List.suffix_append mid (".".data ++ ext)).trans (List.suffix_append _ _)
  rcases hext with h | h
  · subst h
    have hsuf4 : (".mp4".data : List Char)
        <:+ ("Meeting_".data ++ (mid ++ (".".data ++ "mp4".data))) := hsuf
    simp only [specNameForm, Bool.and_eq_true, Bool.or_eq_true]
    exact ⟨by simpa using hpre, Or.inl (by simpa using hsuf4)⟩
  · subst h
    have hsuf5 : (".webm".data : List Char)
        <:+ ("Meeting_".data ++ (mid ++ (".".data ++ "webm".data))) := hsuf
    simp only [specNameForm, Bool.and_eq_true, Bool.or_eq_true]
    exact ⟨by simpa using hpre, Or.inr (by simpa using hsuf5)⟩

/-- C8 amended: in the first application variant, every Recording created
by a successful stop is named Meeting_(date)_(hour)(minute).(extension),
the extension being mp4 or webm as derived from the negotiated encoding;
the second variant instead uses a locale timestamp with no extension (see
the counterexample). -/
theorem claim_C8_name_format (info : StopInfo) (s : Session) (hrec : s.recorderOn = true) :
    ((stopRecording info s).recordings.head?.map Recording.name)
        = some (recordingFileName info s.mimeType) ∧
    (negotiatedExtension s.mimeType = "mp4" ∨ negotiatedExtension s.mimeType = "webm") ∧
    specNameForm (recordingFileName info s.mimeType).data = true := by
  have hext : negotiatedExtension s.mimeType = "mp4"
      ∨ negotiatedExtension s.mimeType = "webm" := by
    unfold negotiatedExtension
    cases h : jsIncludes ("mp4".data) (negotiatedFinalType s.mimeType).data <;> simp [h]
  refine ⟨?_, hext, ?_⟩
  · simp [stopRecording, hrec, recorderOnStop]
  · rw [recordingFileName_data]
    apply specNameForm_shape
    rcases hext with h | h
    · exact Or.inl (congrArg String.data h)
    · exact Or.inr (congrArg String.data h)

/-- Concrete stop information used for the C8 witness. -/
def c8Info : StopInfo := ⟨"42", 42, "2025-01-02", 9, 5⟩

/-- Concrete recording-state session used for the C8 witness. -/
def c8Session : Session :=
  { initialSession with
      recorderState := RecorderState.RECORDING
      recorderOn := true
      chunks := [3]
      connectedSources := [AudioSource.system]
      mimeType := "audio/mp4" }

/-- Witness for C8 at a concrete stop. -/
theorem claim_C8_witness :
    ((stopRecording c8Info c8Session).recordings.head?.map Recording.name)
        = some "Meeting_2025-01-02_95.mp4" ∧
    specNameForm ("Meeting_2025-01-02_95.mp4".data) = true := by
  have h := claim_C8_name_format c8Info c8Session rfl
  refine ⟨?_, by decide⟩
  rw [h.1]
  decide

/-- Concrete recording-state session of the second variant for the C8
counterexample. -/
def c8V2Session : Session :=
  { initialSession with
      recorderState := RecorderState.RECORDING
      recorderOn := true
      chunks := [7]
      connectedSources := [AudioSource.system]
      mimeType := "audio/webm;codecs=opus" }

/-- C8 counterexample: in the second application variant a successful stop
names the Recording with the word Meeting, a space and the locale
timestamp, with no extension, so the name does not have the claimed
Meeting_(date)_(hour)(minute).(extension) form. -/
theorem claim_C8_counterexample :
    (recorderOnStopV2 "9" 9 "12/31/2025, 9:05:07 AM" c8V2Session).recordings.map
        Recording.name = ["Meeting 12/31/2025, 9:05:07 AM"] ∧
    (recorderOnStopV2 "9" 9 "12/31/2025, 9:05:07 AM" c8V2Session).recordings.map
        (fun r => specNameForm r.name.data) = [false] :=
  ⟨by decide, by decide⟩

/-! ### Claim C9: store entry -/

theorem runEvents_no_stop (es : List REvent) :
    ∀ s : Session, s.recorderOn = true → (∀ e ∈ es, isStopEvent e = false) →
    (runEvents s es).recorderOn = true ∧
    (runEvents s es).recordings = s.recordings ∧
    (runEvents s es).chunks
      = s.chunks ++ (eventDataSizes es).filter (fun n => decide (0 < n)) := by
  induction es with
  | nil =>
      intro s h _
      simp [runEvents, eventDataSizes, h]
  | cons e rest ih =>
      intro s hrec hns
      have hrest : ∀ x ∈ rest, isStopEvent x = false :=
        fun x hx => hns x (List.mem_cons_of_mem e hx)
      cases e with
      | tick =>
          have h' := ih { s with timer := s.timer + 1 } hrec hrest
          simpa [runEvents, stepEvent, hrec, eventDataSizes] using h'
      | dataAvailable n =>
          by_cases hn : 0 < n
          · have h' := ih { s with chunks := s.chunks ++ [n] } hrec hrest
            simpa [runEvents, stepEvent, hrec, hn, eventDataSizes,
              List.filter_cons, List.append_assoc] using h'
          · have h' := ih s hrec hrest
            simpa [runEvents, stepEvent, hrec, hn, eventDataSizes,
              List.filter_cons] using h'
      | stopClick info =>
          have h := hns (REvent.stopClick info) (List.mem_cons_self _ _)
          simp [isStopEvent] at h

/-- C9 amended: a Recording enters the store only via the stop of the
recorder (no other event changes the list), exactly one is prepended per
stop, and its payload size is the sum of the non-empty chunks emitted
during the session - in particular it is non-empty whenever at least one
non-empty chunk was emitted (an all-empty session yields an empty payload,
see the counterexample). -/
theorem claim_C9_store_entry (s : Session) (es : List REvent) (info : StopInfo)
    (hrec : s.recorderOn = true) (hch : s.chunks = [])
    (hns : ∀ e ∈ es, isStopEvent e = false) :
    (runEvents s es).recordings = s.recordings ∧
    ∃ rec : Recording,
      (runEvents s (es ++ [REvent.stopClick info])).recordings = rec :: s.recordings ∧
      rec.blobSize = ((eventDataSizes es).filter (fun n => decide (0 < n))).sum ∧
      ((∃ n ∈ eventDataSizes es, 0 < n) → 0 < rec.blobSize) := by
  obtain ⟨hOn, hRecs, hChunks⟩ := runEvents_no_stop es s hrec hns
  refine ⟨hRecs, ?_⟩
  have hrun : runEvents s (es ++ [REvent.stopClick info])
      = stopRecording info (runEvents s es) := by
    simp [runEvents, List.foldl_append, stepEvent]
  have hsum : ((runEvents s es).chunks).sum
      = ((eventDataSizes es).filter (fun n => decide (0 < n))).sum := by
    rw [hChunks, hch]
    simp
  refine ⟨{ id := info.newId
            blobSize := (runEvents s es).chunks.sum
            sources := (runEvents s es).connectedSources
            url := ""
            timestamp := info.now
            duration := (runEvents s es).capturedTimer
            name := recordingFileName info (runEvents s es).mimeType }, ?_, ?_, ?_⟩
  · rw [hrun]
    simp [stopRecording, hOn, recorderOnStop, hRecs]
  · exact hsum
  · rintro ⟨n, hn, hpos⟩
    have hmem : n ∈ (eventDataSizes es).filter (fun n => decide (0 < n)) :=
      List.mem_filter.mpr ⟨hn, by simpa using hpos⟩
    have hall : ∀ x ∈ (eventDataSizes es).filter (fun n => decide (0 < n)), 0 < x := by
      intro x hx
      have hx' := (List.mem_filter.1 hx).2
      simpa using hx'
    have hpossum :
        0 < ((eventDataSizes es).filter (fun n => decide (0 < n))).sum :=
      List.sum_pos _ hall (List.ne_nil_of_mem hmem)
    simpa [hsum] using hpossum

/-- Concrete post-start session for the C9 witness. -/
def c9wStart : Session :=
  (startRecording ⟨DisplayOutcome.granted [1] [2], MicOutcome.granted [3],
    fun t => t == "audio/mp4"⟩ initialSession).session

/-- Concrete stop information for the C9 witness. -/
def c9wInfo : StopInfo := ⟨"5", 5, "2025-01-03", 10, 20⟩

/-- Witness for C9 at a concrete session with one non-empty chunk. -/
theorem claim_C9_witness :
    (runEvents c9wStart [REvent.dataAvailable 2, REvent.tick]).recordings = [] ∧
    (runEvents c9wStart ([REvent.dataAvailable 2, REvent.tick]
        ++ [REvent.stopClick c9wInfo])).recordings.map Recording.blobSize = [2] := by
  obtain ⟨h1, rec, h2, h3, h4⟩ := claim_C9_store_entry c9wStart
    [REvent.dataAvailable 2, REvent.tick] c9wInfo rfl rfl (by decide)
  have hnil : c9wStart.recordings = [] := by decide
  refine ⟨h1.trans hnil, ?_⟩
  rw [h2, hnil]
  rw [List.map_cons, h3]
  decide

/-- The concrete run for the C9 counterexample: successful start, one
empty chunk, then stop. -/
def c9cFinal : Session :=
  runEvents (startRecording ⟨DisplayOutcome.granted [1] [2], MicOutcome.granted [3],
      fun t => t == "audio/mp4"⟩ initialSession).session
    [REvent.dataAvailable 0, REvent.tick,
     REvent.stopClick ⟨"8", 8, "2025-01-03", 11, 30⟩]

/-- C9 counterexample: a successful stop whose recorder emitted no
non-empty chunk stores exactly one Recording, and its payload is empty. -/
theorem claim_C9_counterexample :
    c9cFinal.recordings.map Recording.blobSize = [0] ∧
    c9cFinal.recordings.length = 1 :=
  ⟨by decide, by decide⟩

end EchoMeeting
